import Mathlib

/-!
Shallow embedding of the hospital appointment-booking backend
(`backend/server.py`) and proofs about its scheduling, listing,
update, triage and registration logic.

Modelling conventions:
- the document store (collections `users`, `doctors`, `appointments`) is a
  `Store` of lists in insertion order; `find_one` is `List.find?`,
  `insert_one` appends, `update_one` rewrites the first matching record;
- `datetime` values are opaque `Nat` timestamps;
- fallible handlers return `Except ApiError _`, mirroring `HTTPException`;
- freshly generated ids (`uuid4`) and clock reads are passed as parameters;
- the external language-model call and the JSON parse of its reply are
  passed as function parameters, so that their failure modes can be
  instantiated explicitly.
-/

namespace Hosp

/-- User record, mirroring the `User` pydantic model. -/
structure User where
  id : String
  email : String
  name : String
  phone : String
  password_hash : String
  user_type : String
  created_at : Nat
  deriving Repr, DecidableEq

/-- Registration request body, mirroring `UserCreate`. -/
structure UserCreate where
  email : String
  name : String
  phone : String
  password : String
  user_type : String := "patient"
  deriving Repr, DecidableEq

/-- Public projection of a user, mirroring `UserResponse`. -/
structure UserResponse where
  id : String
  email : String
  name : String
  phone : String
  user_type : String
  deriving Repr, DecidableEq

/-- Doctor profile, mirroring the `Doctor` pydantic model. -/
structure Doctor where
  id : String
  user_id : String
  specializations : List String
  experience_years : Nat
  qualifications : String
  consultation_fee : Rat
  available_days : List String
  available_hours : List (String × List String)
  is_available : Bool := true
  created_at : Nat
  deriving Repr, DecidableEq

/-- Doctor projection with the owning user name, mirroring `DoctorResponse`. -/
structure DoctorResponse where
  id : String
  name : String
  specializations : List String
  experience_years : Nat
  qualifications : String
  consultation_fee : Rat
  available_days : List String
  available_hours : List (String × List String)
  is_available : Bool
  deriving Repr, DecidableEq

/-- Request body of the analyze-symptoms endpoint, mirroring `SymptomAnalysis`. -/
structure SymptomAnalysis where
  symptoms : String
  patient_id : String
  deriving Repr, DecidableEq

/-- One doctor recommendation, mirroring `DoctorRecommendation`. -/
structure DoctorRecommendation where
  doctor : DoctorResponse
  match_reason : String
  urgency_level : String
  deriving Repr, DecidableEq

/-- Triage result, mirroring `SymptomAnalysisResponse`. -/
structure SymptomAnalysisResponse where
  analysis : String
  recommended_specialties : List String
  recommended_doctors : List DoctorRecommendation
  urgency_level : String
  additional_notes : String
  deriving Repr, DecidableEq

/-- Appointment record, mirroring the `Appointment` pydantic model. -/
structure Appointment where
  id : String
  patient_id : String
  doctor_id : String
  appointment_date : Nat
  symptoms : String
  status : String := "scheduled"
  notes : Option String := none
  created_at : Nat
  deriving Repr, DecidableEq

/-- Booking request body, mirroring `AppointmentCreate`. -/
structure AppointmentCreate where
  doctor_id : String
  appointment_date : Nat
  symptoms : String
  deriving Repr, DecidableEq

/-- Display row of the appointment list, mirroring `AppointmentResponse`. -/
structure AppointmentResponse where
  id : String
  patient_name : String
  doctor_name : String
  appointment_date : Nat
  symptoms : String
  status : String
  notes : Option String
  deriving Repr, DecidableEq

/-- Partial update body, mirroring `AppointmentUpdate`; a `none` field is the
pydantic `None` sentinel, dropped by the `v is not None` filter. -/
structure AppointmentUpdate where
  appointment_date : Option Nat := none
  status : Option String := none
  notes : Option String := none
  deriving Repr, DecidableEq

/-- The document store: the three MongoDB collections in insertion order. -/
structure Store where
  users : List User
  doctors : List Doctor
  appointments : List Appointment
  deriving Repr, DecidableEq

/-- Errors raised through `HTTPException`. -/
inductive ApiError where
  | badRequest (detail : String)
  | unauthorized (detail : String)
  | forbidden (detail : String)
  | notFound (detail : String)
  deriving Repr, DecidableEq

/-- POST /appointments handler, mirroring `book_appointment`: role check,
doctor availability check, exact-timestamp conflict check against
non-cancelled appointments, then insert. `newId` stands for the generated
`uuid4` and `now` for `datetime.utcnow()`. -/
def book_appointment (current_user : User) (appointment_data : AppointmentCreate)
    (newId : String) (now : Nat) (s : Store) : Except ApiError (Store × String) :=
  if current_user.user_type ≠ "patient" then
    .error (.forbidden "Only patients can book appointments")
  else
    match s.doctors.find? (fun d => d.id == appointment_data.doctor_id && d.is_available) with
    | none => .error (.notFound "Doctor not found or unavailable")
    | some _ =>
      match s.appointments.find? (fun a =>
          a.doctor_id == appointment_data.doctor_id &&
          a.appointment_date == appointment_data.appointment_date &&
          a.status != "cancelled") with
      | some _ => .error (.badRequest "Time slot already booked")
      | none =>
        let appointment : Appointment :=
          { id := newId
            patient_id := current_user.id
            doctor_id := appointment_data.doctor_id
            appointment_date := appointment_data.appointment_date
            symptoms := appointment_data.symptoms
            status := "scheduled"
            notes := none
            created_at := now }
        .ok ({ s with appointments := s.appointments ++ [appointment] }, newId)

/-- Effect of the `$set` document built by `update_appointment`: fields whose
update value is the `None` sentinel are left unchanged. -/
def applyUpdate (u : AppointmentUpdate) (a : Appointment) : Appointment :=
  { a with
    appointment_date := u.appointment_date.getD a.appointment_date
    status := u.status.getD a.status
    notes := match u.notes with
      | some n => some n
      | none => a.notes }

/-- Mongo `update_one`: rewrite the first record matching the predicate. -/
def updateFirst (p : Appointment → Bool) (f : Appointment → Appointment) :
    List Appointment → List Appointment
  | [] => []
  | a :: as => if p a then f a :: as else a :: updateFirst p f as

/-- PUT /appointments/id handler, mirroring `update_appointment`: lookup,
role-based permission check, then a `$set` of the non-None fields on the
first record with the given id. -/
def update_appointment (appointment_id : String) (update_data : AppointmentUpdate)
    (current_user : User) (s : Store) : Except ApiError Store :=
  match s.appointments.find? (fun a => a.id == appointment_id) with
  | none => .error (.notFound "Appointment not found")
  | some appointment =>
    if current_user.user_type == "patient" && appointment.patient_id != current_user.id then
      .error (.forbidden "Access denied")
    else if current_user.user_type == "doctor" then
      match s.doctors.find? (fun d => d.user_id == current_user.id) with
      | none => .error (.forbidden "Access denied")
      | some doctor_data =>
        if appointment.doctor_id != doctor_data.id then
          .error (.forbidden "Access denied")
        else
          .ok { s with appointments :=
                  updateFirst (fun a => a.id == appointment_id) (applyUpdate update_data) s.appointments }
    else
      .ok { s with appointments :=
              updateFirst (fun a => a.id == appointment_id) (applyUpdate update_data) s.appointments }

/-- Name resolution of one appointment row in `get_appointments`: the patient
user, the doctor record and the doctor-owning user must all resolve, else the
row is dropped. -/
def resolveAppointment (s : Store) (appt : Appointment) : Option AppointmentResponse :=
  match s.users.find? (fun u => u.id == appt.patient_id) with
  | none => none
  | some patient_data =>
    match s.doctors.find? (fun d => d.id == appt.doctor_id) with
    | none => none
    | some doctor_data =>
      match s.users.find? (fun u => u.id == doctor_data.user_id) with
      | none => none
      | some doctor_user_data =>
        some
          { id := appt.id
            patient_name := patient_data.name
            doctor_name := doctor_user_data.name
            appointment_date := appt.appointment_date
            symptoms := appt.symptoms
            status := appt.status
            notes := appt.notes }

/-- GET /appointments handler, mirroring `get_appointments`: role-based filter,
`to_list(length=100)` cap, then name resolution with silent omission of rows
whose cross-references fail. -/
def get_appointments (current_user : User) (s : Store) : List AppointmentResponse :=
  let appointments :=
    if current_user.user_type == "patient" then
      s.appointments.filter (fun a => a.patient_id == current_user.id)
    else if current_user.user_type == "doctor" then
      match s.doctors.find? (fun d => d.user_id == current_user.id) with
      | none => []
      | some doctor_data => s.appointments.filter (fun a => a.doctor_id == doctor_data.id)
    else
      s.appointments
  (appointments.take 100).filterMap (resolveAppointment s)

/-- Outcome of the external language-model call (`chat.send_message`): it
either raises or yields a text reply. -/
inductive LlmOutcome where
  | failure
  | response (text : String)
  deriving Repr, DecidableEq

/-- Parsed fields of the model reply after `json.loads`, each read with
`ai_data.get(key, default)`; a missing key is `none`. -/
structure AiData where
  analysis : Option String := none
  recommended_specialties : Option (List String) := none
  urgency_level : Option String := none
  additional_notes : Option String := none
  deriving Repr, DecidableEq

/-- Outcome of `json.loads` on the model text: a field dictionary, or a
raised parse error. -/
inductive AiParse where
  | ok (d : AiData)
  | err
  deriving Repr, DecidableEq

/-- Session id built for the language-model chat:
`symptom_analysis_<patient_id>_<timestamp>`. -/
def sessionId (patient_id : String) (nowText : String) : String :=
  "symptom_analysis_" ++ patient_id ++ "_" ++ nowText

/-- Text of the user message sent to the language model. -/
def userMessageText (symptoms : String) : String :=
  "Patient symptoms: " ++ symptoms ++ "\n\nPlease analyze these symptoms and provide recommendations."

/-- Doctor projection built at each join point of the source. -/
def mkDoctorResponse (doctor_data : Doctor) (user_data : User) : DoctorResponse :=
  { id := doctor_data.id
    name := user_data.name
    specializations := doctor_data.specializations
    experience_years := doctor_data.experience_years
    qualifications := doctor_data.qualifications
    consultation_fee := doctor_data.consultation_fee
    available_days := doctor_data.available_days
    available_hours := doctor_data.available_hours
    is_available := doctor_data.is_available }

/-- The `except Exception` branch of `analyze_symptoms_with_ai`: basic
matching over the two fixed specialties, up to 5 doctors
(`to_list(length=5)`), skipping doctors whose owning user does not resolve. -/
def fallbackResponse (s : Store) : SymptomAnalysisResponse :=
  let basic_specialties := ["General Medicine", "Internal Medicine"]
  let basic_doctors :=
    (s.doctors.filter (fun d =>
      d.specializations.any (fun sp => basic_specialties.contains sp) && d.is_available)).take 5
  let recommended_doctors := basic_doctors.filterMap (fun doctor_data =>
    (s.users.find? (fun u => u.id == doctor_data.user_id)).map (fun user_data =>
      { doctor := mkDoctorResponse doctor_data user_data
        match_reason := "General consultation"
        urgency_level := "Medium" : DoctorRecommendation }))
  { analysis := "Basic symptom analysis - AI service temporarily unavailable"
    recommended_specialties := basic_specialties
    recommended_doctors := recommended_doctors
    urgency_level := "Medium"
    additional_notes := "Please consult with a healthcare professional for proper diagnosis." }

/-- Core of `analyze_symptoms_with_ai`. The language model is a function
`llm` of the session id and the user message; `parse` is `json.loads` on its
reply; `nowText` is the `datetime.now().timestamp()` read used in the session
id. A raising call takes the `except` fallback; a non-JSON reply takes the
local degraded dictionary; otherwise doctors are matched per recommended
specialty, capped at 3 (`to_list(length=3)`), skipping doctors whose owning
user does not resolve. -/
def analyze_symptoms_with_ai (symptoms : String) (patient_id : String)
    (nowText : String) (llm : String → String → LlmOutcome)
    (parse : String → AiParse) (s : Store) : SymptomAnalysisResponse :=
  match llm (sessionId patient_id nowText) (userMessageText symptoms) with
  | .failure => fallbackResponse s
  | .response ai_response =>
    let ai_data : AiData :=
      match parse ai_response with
      | .ok d => d
      | .err =>
        { analysis := some ai_response
          recommended_specialties := some ["General Medicine"]
          urgency_level := some "Medium"
          additional_notes := some "Please consult with a healthcare professional for proper diagnosis." }
    let recommended_doctors :=
      (ai_data.recommended_specialties.getD []).flatMap (fun specialty =>
        let specialty_doctors :=
          (s.doctors.filter (fun d => d.specializations.contains specialty && d.is_available)).take 3
        specialty_doctors.filterMap (fun doctor_data =>
          (s.users.find? (fun u => u.id == doctor_data.user_id)).map (fun user_data =>
            { doctor := mkDoctorResponse doctor_data user_data
              match_reason := "Specialized in " ++ specialty
              urgency_level := ai_data.urgency_level.getD "Medium" : DoctorRecommendation })))
    { analysis := ai_data.analysis.getD "Symptom analysis completed"
      recommended_specialties := ai_data.recommended_specialties.getD []
      recommended_doctors := recommended_doctors
      urgency_level := ai_data.urgency_level.getD "Medium"
      additional_notes := ai_data.additional_notes.getD "Please consult with a healthcare professional." }

/-- POST /analyze-symptoms handler, mirroring `analyze_symptoms`: role gate
for patient and admin, then the engine is invoked with
`symptom_data.symptoms` and `current_user.id` — the `patient_id` of the
request body is never read. -/
def analyze_symptoms (symptom_data : SymptomAnalysis) (current_user : User)
    (nowText : String) (llm : String → String → LlmOutcome)
    (parse : String → AiParse) (s : Store) : Except ApiError SymptomAnalysisResponse :=
  if current_user.user_type != "patient" && current_user.user_type != "admin" then
    .error (.forbidden "Access denied")
  else
    .ok (analyze_symptoms_with_ai symptom_data.symptoms current_user.id nowText llm parse s)

/-- Successful registration payload: the issued token and the public user. -/
structure RegisterOut where
  access_token : String
  token_type : String
  user : UserResponse
  deriving Repr, DecidableEq

/-- Token issuance, modelled from the spec: JWT signing and a later decode of
a valid token are a round trip on the subject claim, so a token is modelled
by its `sub` field. -/
def create_access_token (sub : String) : String := sub

/-- Token resolution path of `get_current_user`, modelled from the spec:
decode the token to its subject claim and look the user up by id. -/
def resolve_token (token : String) (s : Store) : Option User :=
  s.users.find? (fun u => u.id == token)

/-- POST /register handler, mirroring `register`: duplicate-email check, then
the user is stored with the requested `user_type` unchanged and a token for
the fresh id is returned. `hashPassword` stands for the SHA-256 digest,
`newId` for the generated `uuid4`. -/
def register (hashPassword : String → String) (user_data : UserCreate)
    (newId : String) (now : Nat) (s : Store) : Except ApiError (Store × RegisterOut) :=
  if (s.users.find? (fun u => u.email == user_data.email)).isSome then
    .error (.badRequest "Email already registered")
  else
    let user : User :=
      { id := newId
        email := user_data.email
        name := user_data.name
        phone := user_data.phone
        password_hash := hashPassword user_data.password
        user_type := user_data.user_type
        created_at := now }
    .ok ({ s with users := s.users ++ [user] },
      { access_token := create_access_token user.id
        token_type := "bearer"
        user :=
          { id := user.id
            email := user.email
            name := user.name
            phone := user.phone
            user_type := user.user_type } })

/-- Slot-uniqueness invariant of the spec: for a given doctor, no two
appointments with status other than cancelled share an appointment date. -/
def slotUniqueness (s : Store) : Prop :=
  s.appointments.Pairwise (fun a b =>
    ¬(a.doctor_id = b.doctor_id ∧ a.appointment_date = b.appointment_date ∧
      a.status ≠ "cancelled" ∧ b.status ≠ "cancelled"))

instance (s : Store) : Decidable (slotUniqueness s) := by
  unfold slotUniqueness
  infer_instance

/-- The record inserted by a successful booking. -/
def newAppointment (current_user : User) (appointment_data : AppointmentCreate)
    (newId : String) (now : Nat) : Appointment :=
  { id := newId
    patient_id := current_user.id
    doctor_id := appointment_data.doctor_id
    appointment_date := appointment_data.appointment_date
    symptoms := appointment_data.symptoms
    status := "scheduled"
    notes := none
    created_at := now }

/-- Field-wise frame relation between a stored record and its value after an
update request: identity and linkage fields never change, and every field
whose requested value is the no-value sentinel keeps its stored value. -/
def updateFrame (u : AppointmentUpdate) (a a' : Appointment) : Prop :=
  (a' = a ∨ a' = applyUpdate u a) ∧
  a'.id = a.id ∧ a'.patient_id = a.patient_id ∧ a'.doctor_id = a.doctor_id ∧
  a'.symptoms = a.symptoms ∧ a'.created_at = a.created_at ∧
  (u.appointment_date = none → a'.appointment_date = a.appointment_date) ∧
  (u.status = none → a'.status = a.status) ∧
  (u.notes = none → a'.notes = a.notes)

/-- Example patient user for concrete instantiations. -/
def exPatient : User :=
  { id := "u1", email := "pat@x.com", name := "Pat", phone := "111",
    password_hash := "h1", user_type := "patient", created_at := 0 }

/-- Example doctor-role user owning the example doctor profile. -/
def exDoctorUser : User :=
  { id := "u2", email := "drx@x.com", name := "Dr. X", phone := "222",
    password_hash := "h2", user_type := "doctor", created_at := 0 }

/-- Example doctor profile with two specializations. -/
def exDoctor : Doctor :=
  { id := "d1", user_id := "u2", specializations := ["Cardiology", "General Medicine"],
    experience_years := 10, qualifications := "MD", consultation_fee := 100,
    available_days := ["Monday"], available_hours := [("Monday", ["09:00"])],
    is_available := true, created_at := 0 }

/-- Example store before any booking. -/
def exStore : Store :=
  { users := [exPatient, exDoctorUser], doctors := [exDoctor], appointments := [] }

/-- Example booking request at timestamp 10. -/
def exReq : AppointmentCreate :=
  { doctor_id := "d1", appointment_date := 10, symptoms := "cough" }

/-- Appointment record created by the first example booking. -/
def exAppt1 : Appointment :=
  { id := "a1", patient_id := "u1", doctor_id := "d1", appointment_date := 10, symptoms := "cough", status := "scheduled", notes := none, created_at := 0 }

/-- Store after the first example booking. -/
def exStore1 : Store :=
  { exStore with appointments := [exAppt1] }

/-- Second example booking request: same doctor, timestamp 20. -/
def c2req2 : AppointmentCreate :=
  { doctor_id := "d1", appointment_date := 20, symptoms := "ache" }

/-- Appointment record created by the second example booking. -/
def c2appt2 : Appointment :=
  { id := "a2", patient_id := "u1", doctor_id := "d1", appointment_date := 20, symptoms := "ache", status := "scheduled", notes := none, created_at := 0 }

/-- Store holding the two example bookings at distinct timestamps. -/
def c2store2 : Store :=
  { exStore with appointments := [exAppt1, c2appt2] }

/-- Store after moving the second booking onto the first slot. -/
def c2store3 : Store :=
  { exStore with appointments := [exAppt1, { c2appt2 with appointment_date := 10 }] }

/-- Store after cancelling the first example booking. -/
def c4store : Store :=
  { exStore with appointments := [{ exAppt1 with status := "cancelled" }] }

/-- Update request touching only the notes field. -/
def c8upd : AppointmentUpdate :=
  { appointment_date := none, status := none, notes := some "bring reports" }

/-- Store after the notes-only update of the first example booking. -/
def c8store : Store :=
  { exStore with appointments := [{ exAppt1 with notes := some "bring reports" }] }

/-- The i-th of the 101 example appointments of the capped-listing
counterexample. -/
def c6appt (i : Nat) : Appointment :=
  { id := "x" ++ toString i, patient_id := "u1", doctor_id := "d1", appointment_date := i, symptoms := "s", status := "scheduled", notes := none, created_at := 0 }

/-- Store with 101 fully resolvable appointments of the example patient. -/
def c6store : Store :=
  { users := [exPatient, exDoctorUser], doctors := [exDoctor], appointments := (List.range 101).map c6appt }

/-- Language model stub that always raises. -/
def c3llm : String → String → LlmOutcome := fun _ _ => .failure

/-- Language model stub that replies with non-JSON garbage. -/
def c5llm : String → String → LlmOutcome := fun _ _ => .response "garbage reply"

/-- Parsed model reply naming two specialties covered by the same doctor. -/
def c7data : AiData :=
  { analysis := some "analysis text", recommended_specialties := some ["Cardiology", "General Medicine"], urgency_level := some "High", additional_notes := some "note" }

/-- Language model stub that replies with a fixed JSON text. -/
def c7llm : String → String → LlmOutcome := fun _ _ => .response "json reply"

/-- Parser stub for the fixed JSON text. -/
def c7parse : String → AiParse := fun _ => .ok c7data

/-- Registration request asking for the admin role. -/
def c9req : UserCreate :=
  { email := "boss@x.com", name := "Boss", phone := "999", password := "pw", user_type := "admin" }

/-- Two analyze-symptoms request bodies differing only in patient id. -/
def c10body1 : SymptomAnalysis := { symptoms := "fever", patient_id := "someone else" }

/-- Same symptoms as the first body, another patient id. -/
def c10body2 : SymptomAnalysis := { symptoms := "fever", patient_id := "u1" }

/-- Anatomy of a successful booking: the role check, availability check and
conflict check all passed and the new record was appended. -/
theorem book_appointment_ok_inv (u : User) (req : AppointmentCreate)
    (newId : String) (now : Nat) (s s' : Store) (aid : String)
    (h : book_appointment u req newId now s = .ok (s', aid)) :
    u.user_type = "patient" ∧
    (∃ d, s.doctors.find? (fun d => d.id == req.doctor_id && d.is_available) = some d) ∧
    s.appointments.find? (fun a =>
      a.doctor_id == req.doctor_id && a.appointment_date == req.appointment_date &&
      a.status != "cancelled") = none ∧
    s' = { s with appointments := s.appointments ++ [newAppointment u req newId now] } ∧
    aid = newId := by
  unfold book_appointment at h
  split at h
  · cases h
  next hrole =>
    rw [not_not] at hrole
    split at h
    · cases h
    next d hd =>
      split at h
      · cases h
      next hnone =>
        cases h
        exact ⟨hrole, ⟨d, hd⟩, hnone, rfl, rfl⟩

/-- C1: booking the same doctor and timestamp a second time, right after a
successful first booking, is rejected with the Conflict error. -/
theorem book_twice_conflict (u1 u2 : User) (req : AppointmentCreate)
    (id1 id2 : String) (t1 t2 : Nat) (s s1 : Store) (aid : String)
    (h1 : book_appointment u1 req id1 t1 s = .ok (s1, aid))
    (h2 : u2.user_type = "patient") :
    book_appointment u2 req id2 t2 s1 = .error (.badRequest "Time slot already booked") := by
  obtain ⟨hrole, ⟨d, hd⟩, hnone, hs1, haid⟩ := book_appointment_ok_inv u1 req id1 t1 s s1 aid h1
  subst hs1
  unfold book_appointment
  rw [if_neg (by simp [h2])]
  have hd1 : ({ s with appointments := s.appointments ++ [newAppointment u1 req id1 t1] } : Store).doctors
      = s.doctors := rfl
  rw [hd1, hd]
  have hfind : ({ s with appointments := s.appointments ++ [newAppointment u1 req id1 t1] } : Store).appointments.find?
      (fun a => a.doctor_id == req.doctor_id && a.appointment_date == req.appointment_date && a.status != "cancelled")
      = some (newAppointment u1 req id1 t1) := by
    show (s.appointments ++ [newAppointment u1 req id1 t1]).find? _ = _
    rw [List.find?_append, hnone]
    simp [newAppointment]
  rw [hfind]

/-- C2 (amended): a successful booking preserves the slot-uniqueness
invariant. -/
theorem book_preserves_slot_uniqueness (u : User) (req : AppointmentCreate)
    (newId : String) (now : Nat) (s s' : Store) (aid : String)
    (hinv : slotUniqueness s)
    (h : book_appointment u req newId now s = .ok (s', aid)) :
    slotUniqueness s' := by
  obtain ⟨hrole, ⟨d, hd⟩, hnone, hs', haid⟩ := book_appointment_ok_inv u req newId now s s' aid h
  subst hs'
  unfold slotUniqueness at hinv ⊢
  show (s.appointments ++ [newAppointment u req newId now]).Pairwise _
  rw [List.pairwise_append]
  refine ⟨hinv, List.pairwise_singleton _ _, ?_⟩
  intro a ha b hb
  rw [List.mem_singleton] at hb
  subst hb
  rintro ⟨hdoc, hdate, hstat, -⟩
  have := List.find?_eq_none.mp hnone a ha
  apply this
  simp [newAppointment] at hdoc hdate
  simp [hdoc, hdate, hstat]

/-- Shape of a successful update: only the appointments collection changes,
by a rewrite of the first record with the requested id. -/
theorem update_appointment_ok_shape (appointment_id : String)
    (update_data : AppointmentUpdate) (current_user : User) (s s' : Store)
    (h : update_appointment appointment_id update_data current_user s = .ok s') :
    s' = { s with appointments := updateFirst (fun a => a.id == appointment_id) (applyUpdate update_data) s.appointments } := by
  unfold update_appointment at h
  split at h
  · cases h
  next appt hfound =>
    split at h
    · cases h
    split at h
    · split at h
      · cases h
      next d hd =>
        split at h
        · cases h
        · cases h; rfl
    · cases h
      rfl

/-- After rewriting the only potentially conflicting record to cancelled
status, no record conflicts at the given doctor and date. Needs pairwise
distinct ids so that no stale copy of the target remains. -/
theorem updateFirst_cancel_clears_slot (D : String) (T : Nat) (aid : String)
    (u : AppointmentUpdate) (hu : u.status = some "cancelled")
    (l : List Appointment)
    (hids : l.Pairwise (fun x y => x.id ≠ y.id))
    (honly : ∀ b ∈ l, b.doctor_id = D → b.appointment_date = T →
      b.status ≠ "cancelled" → b.id = aid) :
    ∀ b ∈ updateFirst (fun a => a.id == aid) (applyUpdate u) l,
      ¬(b.doctor_id = D ∧ b.appointment_date = T ∧ b.status ≠ "cancelled") := by
  induction l with
  | nil => intro b hb; cases hb
  | cons a as ih =>
    intro b hb
    rw [List.pairwise_cons] at hids
    unfold updateFirst at hb
    by_cases hpa : a.id = aid
    · rw [if_pos (by simpa using hpa)] at hb
      rcases List.mem_cons.mp hb with hb | hb
      · subst hb
        rintro ⟨-, -, hstat⟩
        apply hstat
        simp [applyUpdate, hu]
      · rintro ⟨hdoc, hdate, hstat⟩
        have hbid := honly b (List.mem_cons_of_mem a hb) hdoc hdate hstat
        exact hids.1 b hb (hpa.trans hbid.symm)
    · rw [if_neg (by simpa using hpa)] at hb
      rcases List.mem_cons.mp hb with hb | hb
      · subst hb
        rintro ⟨hdoc, hdate, hstat⟩
        exact hpa (honly b (List.mem_cons_self _ _) hdoc hdate hstat)
      · exact ih hids.2 (fun c hc => honly c (List.mem_cons_of_mem a hc)) b hb

/-- C4: when the only record that could conflict at the requested doctor and
timestamp is the appointment being cancelled, a subsequent booking of the same
slot by a patient succeeds: cancelled records are excluded from the conflict
check. -/
theorem cancel_then_rebook_ok (aid : String) (cu u : User)
    (req : AppointmentCreate) (newId : String) (now : Nat) (s s' : Store) (d : Doctor)
    (hids : s.appointments.Pairwise (fun x y => x.id ≠ y.id))
    (honly : ∀ b ∈ s.appointments, b.doctor_id = req.doctor_id →
      b.appointment_date = req.appointment_date → b.status ≠ "cancelled" → b.id = aid)
    (hupd : update_appointment aid { appointment_date := none, status := some "cancelled", notes := none } cu s = .ok s')
    (hu : u.user_type = "patient")
    (hd : s.doctors.find? (fun d => d.id == req.doctor_id && d.is_available) = some d) :
    ∃ s2, book_appointment u req newId now s' = .ok (s2, newId) := by
  have hshape := update_appointment_ok_shape aid _ cu s s' hupd
  subst hshape
  have hclear := updateFirst_cancel_clears_slot req.doctor_id req.appointment_date aid
    { appointment_date := none, status := some "cancelled", notes := none } rfl
    s.appointments hids honly
  refine ⟨{ s with appointments := (updateFirst (fun a => a.id == aid) (applyUpdate { appointment_date := none, status := some "cancelled", notes := none }) s.appointments) ++ [newAppointment u req newId now] }, ?_⟩
  unfold book_appointment
  rw [if_neg (by simp [hu])]
  have hdocs : ({ s with appointments := updateFirst (fun a => a.id == aid) (applyUpdate { appointment_date := none, status := some "cancelled", notes := none }) s.appointments } : Store).doctors = s.doctors := rfl
  rw [hdocs, hd]
  have hnone : (updateFirst (fun a => a.id == aid) (applyUpdate { appointment_date := none, status := some "cancelled", notes := none }) s.appointments).find?
      (fun a => a.doctor_id == req.doctor_id && a.appointment_date == req.appointment_date && a.status != "cancelled") = none := by
    rw [List.find?_eq_none]
    intro b hb hpred
    simp only [Bool.and_eq_true, beq_iff_eq, bne_iff_ne, ne_eq] at hpred
    exact hclear b hb ⟨hpred.1.1, hpred.1.2, hpred.2⟩
  rw [show ({ s with appointments := updateFirst (fun a => a.id == aid) (applyUpdate { appointment_date := none, status := some "cancelled", notes := none }) s.appointments } : Store).appointments = updateFirst (fun a => a.id == aid) (applyUpdate { appointment_date := none, status := some "cancelled", notes := none }) s.appointments from rfl, hnone]
  rfl

theorem updateFrame_refl (u : AppointmentUpdate) (a : Appointment) : updateFrame u a a :=
  ⟨Or.inl rfl, rfl, rfl, rfl, rfl, rfl, fun _ => rfl, fun _ => rfl, fun _ => rfl⟩

theorem updateFrame_applyUpdate (u : AppointmentUpdate) (a : Appointment) :
    updateFrame u a (applyUpdate u a) := by
  refine ⟨Or.inr rfl, rfl, rfl, rfl, rfl, rfl, ?_, ?_, ?_⟩
  · intro h; simp [applyUpdate, h]
  · intro h; simp [applyUpdate, h]
  · intro h; simp [applyUpdate, h]

theorem updateFirst_forall₂ (u : AppointmentUpdate) (p : Appointment → Bool)
    (l : List Appointment) :
    List.Forall₂ (updateFrame u) l (updateFirst p (applyUpdate u) l) := by
  induction l with
  | nil => exact List.Forall₂.nil
  | cons a as ih =>
    unfold updateFirst
    by_cases hp : p a
    · rw [if_pos hp]
      exact List.Forall₂.cons (updateFrame_applyUpdate u a)
        (List.forall₂_same.mpr (fun x _ => updateFrame_refl u x))
    · rw [if_neg hp]
      exact List.Forall₂.cons (updateFrame_refl u a) ih

/-- C8: a permitted update modifies nothing outside the requested fields: the
users and doctors collections are untouched, every appointment record is
either unchanged or is the target rewritten by the requested field set, and
identity fields plus every absent-or-sentinel field keep their stored
values. -/
theorem update_appointment_frame (appointment_id : String)
    (update_data : AppointmentUpdate) (current_user : User) (s s' : Store)
    (h : update_appointment appointment_id update_data current_user s = .ok s') :
    s'.users = s.users ∧ s'.doctors = s.doctors ∧
    List.Forall₂ (updateFrame update_data) s.appointments s'.appointments := by
  have hshape := update_appointment_ok_shape appointment_id update_data current_user s s' h
  subst hshape
  exact ⟨rfl, rfl, updateFirst_forall₂ update_data _ s.appointments⟩

/-- Resolution failure cases: a row is dropped exactly when the patient user,
the doctor record, or the doctor-owning user cannot be found. -/
theorem resolveAppointment_eq_none_iff (s : Store) (a : Appointment) :
    resolveAppointment s a = none ↔
      s.users.find? (fun u => u.id == a.patient_id) = none ∨
      s.doctors.find? (fun d => d.id == a.doctor_id) = none ∨
      (∃ d0, s.doctors.find? (fun d => d.id == a.doctor_id) = some d0 ∧
        s.users.find? (fun u => u.id == d0.user_id) = none) := by
  unfold resolveAppointment
  rcases hp : s.users.find? (fun u => u.id == a.patient_id) with _ | p
  · simp [hp]
  rcases hd : s.doctors.find? (fun d => d.id == a.doctor_id) with _ | d0
  · simp [hp, hd]
  rcases hdu : s.users.find? (fun u => u.id == d0.user_id) with _ | du
  · simp [hp, hd, hdu]
    exact fun x hx => by simpa using List.find?_eq_none.mp hdu x hx
  · simp [hp, hd, hdu]
    exact ⟨du, List.mem_of_find?_eq_some hdu, by simpa using List.find?_some hdu⟩

/-- C6 (amended): role-based visibility of the appointment listing, with the
first-100 cap and silent omission of rows whose cross-references fail: a
patient sees the resolvable rows among the first 100 of their own
appointments, a doctor with no Doctor record gets an empty list, a doctor
with a Doctor record sees the rows bound to it, and an admin sees all, always
capped at the first 100 and restricted to resolvable rows. -/
theorem get_appointments_role_visibility (cu : User) (s : Store) :
    (cu.user_type = "patient" →
      get_appointments cu s =
        ((s.appointments.filter (fun a => decide (a.patient_id = cu.id))).take 100).filterMap (resolveAppointment s)) ∧
    (cu.user_type = "doctor" →
      (s.doctors.find? (fun d => d.user_id == cu.id) = none → get_appointments cu s = []) ∧
      (∀ d0, s.doctors.find? (fun d => d.user_id == cu.id) = some d0 →
        get_appointments cu s =
          ((s.appointments.filter (fun a => decide (a.doctor_id = d0.id))).take 100).filterMap (resolveAppointment s))) ∧
    (cu.user_type = "admin" →
      get_appointments cu s = (s.appointments.take 100).filterMap (resolveAppointment s)) ∧
    (∀ a, resolveAppointment s a = none ↔
      s.users.find? (fun u => u.id == a.patient_id) = none ∨
      s.doctors.find? (fun d => d.id == a.doctor_id) = none ∨
      (∃ d0, s.doctors.find? (fun d => d.id == a.doctor_id) = some d0 ∧
        s.users.find? (fun u => u.id == d0.user_id) = none)) := by
  refine ⟨?_, ?_, ?_, fun a => resolveAppointment_eq_none_iff s a⟩
  · intro h
    unfold get_appointments
    rw [if_pos (by simp [h])]
    rfl
  · intro h
    constructor
    · intro hnone
      unfold get_appointments
      rw [if_neg (by simp [h]), if_pos (by simp [h]), hnone]
      rfl
    · intro d0 hsome
      unfold get_appointments
      rw [if_neg (by simp [h]), if_pos (by simp [h]), hsome]
      rfl
  · intro h
    unfold get_appointments
    rw [if_neg (by simp [h]), if_neg (by simp [h])]

/-- C3: when the language-model call raises, the engine falls back to the
basic result: the two fixed specialties, Medium urgency, the fixed analysis
and notes strings, and up to 5 available doctors matching a basic specialty,
each recommended for a general consultation. -/
theorem analyze_llm_failure_fallback (symptoms patient_id nowText : String)
    (llm : String → String → LlmOutcome) (parse : String → AiParse) (s : Store)
    (r : SymptomAnalysisResponse)
    (hfail : llm (sessionId patient_id nowText) (userMessageText symptoms) = .failure)
    (hr : analyze_symptoms_with_ai symptoms patient_id nowText llm parse s = r) :
    r.analysis = "Basic symptom analysis - AI service temporarily unavailable" ∧
    r.recommended_specialties = ["General Medicine", "Internal Medicine"] ∧
    r.urgency_level = "Medium" ∧
    r.additional_notes = "Please consult with a healthcare professional for proper diagnosis." ∧
    r.recommended_doctors.length ≤ 5 ∧
    (∀ rec ∈ r.recommended_doctors, rec.match_reason = "General consultation" ∧
      rec.urgency_level = "Medium" ∧
      ∃ d ∈ s.doctors, d.is_available = true ∧
        ("General Medicine" ∈ d.specializations ∨ "Internal Medicine" ∈ d.specializations) ∧
        ∃ ud, s.users.find? (fun u => u.id == d.user_id) = some ud ∧
          rec.doctor = mkDoctorResponse d ud) := by
  subst hr
  unfold analyze_symptoms_with_ai
  rw [hfail]
  refine ⟨rfl, rfl, rfl, rfl, ?_, ?_⟩
  · exact le_trans (List.length_filterMap_le _ _) (List.length_take_le _ _)
  · intro rec hrec
    have hrec2 : rec ∈ List.filterMap
        (fun doctor_data => (s.users.find? (fun u => u.id == doctor_data.user_id)).map
          (fun user_data => { doctor := mkDoctorResponse doctor_data user_data, match_reason := "General consultation", urgency_level := "Medium" : DoctorRecommendation }))
        ((s.doctors.filter (fun d => d.specializations.any (fun sp => ["General Medicine", "Internal Medicine"].contains sp) && d.is_available)).take 5) := hrec
    rw [List.mem_filterMap] at hrec2
    obtain ⟨dd, hdd, hmap⟩ := hrec2
    have hdd2 := List.mem_of_mem_take hdd
    rw [List.mem_filter] at hdd2
    obtain ⟨hmem, hpred⟩ := hdd2
    rw [Bool.and_eq_true] at hpred
    obtain ⟨hany, havail⟩ := hpred
    obtain ⟨ud, hud, hrec⟩ := Option.map_eq_some'.mp hmap
    refine ⟨hrec ▸ rfl, hrec ▸ rfl, dd, hmem, havail, ?_, ud, hud, hrec ▸ rfl⟩
    rw [List.any_eq_true] at hany
    obtain ⟨sp, hsp, hin⟩ := hany
    simp only [List.contains_cons, List.contains_nil, Bool.or_false, Bool.or_eq_true,
      beq_iff_eq] at hin
    rcases hin with h | h
    · exact Or.inl (h ▸ hsp)
    · exact Or.inr (h ▸ hsp)

/-- C5: when the model reply is not parseable JSON, the engine recovers
locally: the raw reply becomes the analysis, the specialties degrade to
General Medicine only, urgency is Medium and the notes are the generic
disclaimer; no parse error reaches the caller. -/
theorem analyze_parse_failure_degraded (symptoms patient_id nowText : String)
    (llm : String → String → LlmOutcome) (parse : String → AiParse) (s : Store)
    (text : String) (r : SymptomAnalysisResponse)
    (hresp : llm (sessionId patient_id nowText) (userMessageText symptoms) = .response text)
    (hparse : parse text = .err)
    (hr : analyze_symptoms_with_ai symptoms patient_id nowText llm parse s = r) :
    r.analysis = text ∧
    r.recommended_specialties = ["General Medicine"] ∧
    r.urgency_level = "Medium" ∧
    r.additional_notes = "Please consult with a healthcare professional for proper diagnosis." := by
  subst hr
  simp only [analyze_symptoms_with_ai, hresp, hparse]
  exact ⟨rfl, rfl, rfl, rfl⟩

/-- C7: on a parsed model reply, doctor recommendations are assembled by
iterating the recommended specialties in model order, taking at most 3
available doctors whose specializations contain the specialty, and appending
one recommendation per resolvable doctor with the specialty-specific match
reason and the model urgency; nothing is deduplicated across specialties. -/
theorem analyze_per_specialty_matching (symptoms patient_id nowText : String)
    (llm : String → String → LlmOutcome) (parse : String → AiParse) (s : Store)
    (text : String) (d : AiData) (specs : List String) (urg : String)
    (hresp : llm (sessionId patient_id nowText) (userMessageText symptoms) = .response text)
    (hparse : parse text = .ok d)
    (hspecs : d.recommended_specialties = some specs)
    (hurg : d.urgency_level = some urg) :
    (analyze_symptoms_with_ai symptoms patient_id nowText llm parse s).recommended_doctors =
      specs.flatMap (fun specialty =>
        ((s.doctors.filter (fun doc => doc.specializations.contains specialty && doc.is_available)).take 3).filterMap (fun doc =>
          (s.users.find? (fun u => u.id == doc.user_id)).map (fun ud =>
            { doctor := mkDoctorResponse doc ud
              match_reason := "Specialized in " ++ specialty
              urgency_level := urg }))) := by
  simp only [analyze_symptoms_with_ai, hresp, hparse, hspecs, hurg, Option.getD_some]

/-- C9: registration does not validate the requested role: with a fresh email
and a fresh id, a request with user_type admin succeeds, the stored user
carries the admin role, and the returned token resolves to that user through
the authentication path. -/
theorem register_admin_self_provision (hashPassword : String → String)
    (user_data : UserCreate) (newId : String) (now : Nat) (s : Store)
    (hemail : s.users.find? (fun u => u.email == user_data.email) = none)
    (hid : ∀ u ∈ s.users, u.id ≠ newId)
    (hrole : user_data.user_type = "admin") :
    ∃ s' out, register hashPassword user_data newId now s = .ok (s', out) ∧
      out.token_type = "bearer" ∧ out.user.user_type = "admin" ∧
      ∃ u, resolve_token out.access_token s' = some u ∧
        u ∈ s'.users ∧ u.id = newId ∧ u.user_type = "admin" ∧ u.email = user_data.email := by
  have hreg : register hashPassword user_data newId now s =
      .ok ({ s with users := s.users ++ [{ id := newId, email := user_data.email, name := user_data.name, phone := user_data.phone, password_hash := hashPassword user_data.password, user_type := user_data.user_type, created_at := now }] },
        { access_token := create_access_token newId, token_type := "bearer", user := { id := newId, email := user_data.email, name := user_data.name, phone := user_data.phone, user_type := user_data.user_type } }) := by
    unfold register
    rw [hemail]
    rfl
  refine ⟨_, _, hreg, rfl, hrole, ?_⟩
  refine ⟨{ id := newId, email := user_data.email, name := user_data.name, phone := user_data.phone, password_hash := hashPassword user_data.password, user_type := user_data.user_type, created_at := now }, ?_, ?_, rfl, hrole, rfl⟩
  · show List.find? _ (s.users ++ [_]) = _
    rw [List.find?_append]
    rw [show List.find? (fun u => u.id == create_access_token newId) s.users = none from
      List.find?_eq_none.mpr (fun x hx => by simpa [create_access_token] using hid x hx)]
    simp [List.find?_cons, create_access_token]
  · simp

/-- C10: the analyze-symptoms endpoint ignores the patient_id of the request
body: two requests by the same user with the same symptoms text and the same
model behaviour produce the same result, whatever patient ids they carry. -/
theorem analyze_symptoms_patient_id_ignored (b1 b2 : SymptomAnalysis)
    (current_user : User) (nowText : String) (llm : String → String → LlmOutcome)
    (parse : String → AiParse) (s : Store)
    (hsym : b1.symptoms = b2.symptoms) :
    analyze_symptoms b1 current_user nowText llm parse s =
      analyze_symptoms b2 current_user nowText llm parse s := by
  unfold analyze_symptoms
  rw [hsym]

theorem book_twice_conflict_witness :
    book_appointment exPatient exReq "a1" 0 exStore = .ok (exStore1, "a1") ∧
    book_appointment exPatient exReq "a2" 1 exStore1 = .error (.badRequest "Time slot already booked") :=
  ⟨by rfl, book_twice_conflict exPatient exPatient exReq "a1" "a2" 0 1 exStore exStore1 "a1" (by rfl) rfl⟩

/-- C2 counterexample: from an empty ledger, two bookings at distinct slots
succeed and keep the invariant, but an update that moves the second booking
onto the first slot is accepted without any conflict check and breaks slot
uniqueness. -/
theorem update_breaks_slot_uniqueness_cex :
    slotUniqueness exStore ∧
    book_appointment exPatient exReq "a1" 0 exStore = .ok (exStore1, "a1") ∧
    book_appointment exPatient c2req2 "a2" 0 exStore1 = .ok (c2store2, "a2") ∧
    slotUniqueness c2store2 ∧
    update_appointment "a2" { appointment_date := some 10, status := none, notes := none } exPatient c2store2 = .ok c2store3 ∧
    ¬ slotUniqueness c2store3 :=
  ⟨by decide, by rfl, by rfl, by decide, by rfl, by decide⟩

theorem book_preserves_slot_uniqueness_witness :
    slotUniqueness exStore1 :=
  book_preserves_slot_uniqueness exPatient exReq "a1" 0 exStore exStore1 "a1" (by decide) (by rfl)

theorem cancel_then_rebook_ok_witness :
    ∃ s2, book_appointment exPatient exReq "a2" 1 c4store = .ok (s2, "a2") :=
  cancel_then_rebook_ok "a1" exPatient exPatient exReq "a2" 1 exStore1 c4store exDoctor
    (by decide) (by decide) (by rfl) rfl (by rfl)

theorem update_appointment_frame_witness :
    update_appointment "a1" c8upd exPatient exStore1 = .ok c8store ∧
    List.Forall₂ (updateFrame c8upd) exStore1.appointments c8store.appointments :=
  ⟨by rfl, (update_appointment_frame "a1" c8upd exPatient exStore1 c8store (by rfl)).2.2⟩

theorem get_appointments_role_visibility_witness :
    get_appointments exPatient exStore1 =
      ((exStore1.appointments.filter (fun a => decide (a.patient_id = exPatient.id))).take 100).filterMap (resolveAppointment exStore1) :=
  (get_appointments_role_visibility exPatient exStore1).1 rfl

/-- C6 counterexample: with 101 resolvable appointments of one patient, the
listing returns only 100 rows and silently drops the 101st even though its
references resolve, so the listing is not exactly the role-filtered set. -/
theorem get_appointments_cap_cex :
    (c6store.appointments.filter (fun a => a.patient_id == exPatient.id)).length = 101 ∧
    (∀ a ∈ c6store.appointments, (resolveAppointment c6store a).isSome = true) ∧
    (get_appointments exPatient c6store).length = 100 ∧
    c6appt 100 ∈ c6store.appointments ∧
    (c6appt 100).patient_id = exPatient.id ∧
    (∀ r ∈ get_appointments exPatient c6store, r.id ≠ (c6appt 100).id) :=
  ⟨by decide, by decide, by decide, by decide, by decide, by decide⟩

theorem analyze_llm_failure_fallback_witness :
    (analyze_symptoms_with_ai "cough" "u1" "t0" c3llm (fun _ => .err) exStore).recommended_specialties = ["General Medicine", "Internal Medicine"] ∧
    (analyze_symptoms_with_ai "cough" "u1" "t0" c3llm (fun _ => .err) exStore).urgency_level = "Medium" := by
  have h := analyze_llm_failure_fallback "cough" "u1" "t0" c3llm (fun _ => .err) exStore _ rfl rfl
  exact ⟨h.2.1, h.2.2.1⟩

theorem analyze_parse_failure_degraded_witness :
    (analyze_symptoms_with_ai "cough" "u1" "t0" c5llm (fun _ => .err) exStore).analysis = "garbage reply" ∧
    (analyze_symptoms_with_ai "cough" "u1" "t0" c5llm (fun _ => .err) exStore).recommended_specialties = ["General Medicine"] := by
  have h := analyze_parse_failure_degraded "cough" "u1" "t0" c5llm (fun _ => .err) exStore "garbage reply" _ rfl rfl rfl
  exact ⟨h.1, h.2.1⟩

theorem analyze_per_specialty_matching_witness :
    ((analyze_symptoms_with_ai "chest pain" "u1" "t0" c7llm c7parse exStore).recommended_doctors).map (fun rec => (rec.doctor.id, rec.match_reason, rec.urgency_level)) =
      [("d1", "Specialized in Cardiology", "High"), ("d1", "Specialized in General Medicine", "High")] := by
  rw [analyze_per_specialty_matching "chest pain" "u1" "t0" c7llm c7parse exStore "json reply" c7data ["Cardiology", "General Medicine"] "High" rfl rfl rfl rfl]
  decide

theorem register_admin_self_provision_witness :
    ∃ s' out, register (fun p => p) c9req "u9" 0 exStore = .ok (s', out) ∧
      out.token_type = "bearer" ∧ out.user.user_type = "admin" ∧
      ∃ u, resolve_token out.access_token s' = some u ∧
        u ∈ s'.users ∧ u.id = "u9" ∧ u.user_type = "admin" ∧ u.email = c9req.email :=
  register_admin_self_provision (fun p => p) c9req "u9" 0 exStore (by rfl) (by decide) rfl

theorem analyze_symptoms_patient_id_ignored_witness :
    analyze_symptoms c10body1 exPatient "t0" c3llm (fun _ => .err) exStore =
      analyze_symptoms c10body2 exPatient "t0" c3llm (fun _ => .err) exStore :=
  analyze_symptoms_patient_id_ignored c10body1 c10body2 exPatient "t0" c3llm (fun _ => .err) exStore rfl

end Hosp
